import Mathlib

/-!
Shallow embedding of the U-tec local gateway (src/gateway/main.py) and the
Home Assistant coordinator (src/custom_components/uteclocal/__init__.py).

Conventions of the embedding:
* Wall-clock time is an explicit `now : Int` parameter measured in seconds
  (the Python code uses `datetime.now()`; `timedelta(minutes=m)` becomes
  `60 * m` seconds).
* The process-wide mutable `config_data` dictionary becomes the `Config`
  structure; `save_config` (writing `config_data` to `/data/config.json`)
  becomes copying the in-memory configuration into the `disk` field of
  `GState`.
* An HTTP exchange becomes an explicit response argument: `Except Unit r`
  is a transport-level failure (`.error ()`, i.e. a raised exception from
  `httpx`) or a received response `.ok`.
* Optional JSON fields of the vendor's token response become `Option`
  fields; `dict.get(k, d)` becomes `Option.getD`.
-/

namespace UtecLocal

/-- The token/credential slice of the `config_data` global in
src/gateway/main.py: `token_expires_at` is `None` or a parsed timestamp
(`datetime.fromisoformat` successes are abstracted as the `some` case). -/
structure Config where
  access_token : String
  refresh_token : String
  access_key : String
  secret_key : String
  token_expires_at : Option Int
  refresh_buffer_minutes : Int
  deriving Repr, DecidableEq

/-- Gateway state: the in-memory `config_data` plus its persisted copy on
disk (written by `save_config`). -/
structure GState where
  config : Config
  disk : Config
  deriving Repr, DecidableEq

/-- Embeds `save_config()`: dump the in-memory configuration to the config file. -/
def save_config (s : GState) : GState :=
  { s with disk := s.config }

/-- Embeds `get_token_expiration()`: the recorded expiration, if any. -/
def get_token_expiration (c : Config) : Option Int :=
  c.token_expires_at

/-- Embeds `set_token_expiration(expires_in)`: records `now + expires_in` as the
expiration and saves the configuration. -/
def set_token_expiration (s : GState) (now expires_in : Int) : GState :=
  save_config
    { s with config := { s.config with token_expires_at := some (now + expires_in) } }

/-- Embeds `is_token_expired()`: true when no expiration is recorded, or when
`now + buffer >= expiration` with `buffer = refresh_buffer_minutes` minutes. -/
def is_token_expired (c : Config) (now : Int) : Bool :=
  match get_token_expiration c with
  | none => true
  | some e => decide (now + 60 * c.refresh_buffer_minutes ≥ e)

/-- JSON body of a response from the vendor's OAuth token endpoint,
together with its HTTP status. -/
structure TokenResp where
  status : Nat
  access_token : Option String
  refresh_token : Option String
  expires_in : Option Int
  deriving Repr, DecidableEq

/-- Result of `refresh_access_token` / `ensure_valid_token`: the updated
gateway state, the boolean the function returns, and how many vendor
token-endpoint exchanges were issued (0 or 1). -/
structure RefreshResult where
  state : GState
  success : Bool
  vendorCalls : Nat
  deriving Repr, DecidableEq

/-- The `response.status_code == 200` branch of `refresh_access_token`:
store the response's access token (empty string when absent), replace the
refresh token only when the response carries one, set the expiration from
`expires_in` (default 3600 s), and save. -/
def apply_token_success (s : GState) (now : Int) (td : TokenResp) : GState :=
  let c1 := { s.config with access_token := td.access_token.getD "" }
  let c2 :=
    match td.refresh_token with
    | some rt => { c1 with refresh_token := rt }
    | none => c1
  let s2 := { s with config := c2 }
  let s3 :=
    match td.expires_in with
    | some n => set_token_expiration s2 now n
    | none => set_token_expiration s2 now 3600
  save_config s3

/-- Embeds `refresh_access_token()`: no vendor call without a refresh token; the
exchange's outcome is the `resp` argument (transport failure or response). -/
def refresh_access_token (s : GState) (now : Int) (resp : Except Unit TokenResp) :
    RefreshResult :=
  if s.config.refresh_token = "" then ⟨s, false, 0⟩
  else
    match resp with
    | .error _ => ⟨s, false, 1⟩
    | .ok r =>
      if r.status = 200 then ⟨apply_token_success s now r, true, 1⟩
      else ⟨s, false, 1⟩

/-- Embeds `ensure_valid_token()`: false immediately when no access token is
stored, otherwise refresh when expired, otherwise true with no call. -/
def ensure_valid_token (s : GState) (now : Int) (resp : Except Unit TokenResp) :
    RefreshResult :=
  if s.config.access_token = "" then ⟨s, false, 0⟩
  else if is_token_expired s.config now then refresh_access_token s now resp
  else ⟨s, true, 0⟩

/-- What the device API endpoint does on one attempt of
`make_authenticated_request`: deliver a response with some status, raise
`httpx.TimeoutException`, or raise another transport exception. -/
inductive Outcome where
  | resp (status : Nat)
  | timeout
  | netErr
  deriving Repr, DecidableEq

/-- Errors `make_authenticated_request` can raise: `TokenRefreshError`
from the initial `ensure_valid_token` check, a re-raised timeout, a
re-raised transport exception, or the unreachable final
`Exception("Max retries exceeded")`. -/
inductive ExecErr where
  | tokenUnavailable
  | timeout
  | netErr
  | exhausted
  deriving Repr, DecidableEq

/-- Visible outcome of `make_authenticated_request`: a returned response
status or a raised error. -/
inductive ExecOut where
  | ok (status : Nat)
  | err (e : ExecErr)
  deriving Repr, DecidableEq

/-- Observable run of `make_authenticated_request`: its outcome, how many
attempts were sent, the `asyncio.sleep` delays performed (in order), the
bearer token attached to each attempt (in order), how many times
`refresh_access_token` was invoked from the 401 branch of the retry loop,
and the final gateway state. -/
structure ExecResult where
  result : ExecOut
  attempts : Nat
  delays : List Nat
  tokens : List String
  refreshCalls : Nat
  state : GState
  deriving Repr, DecidableEq

/-- The `for attempt in range(max_retries + 1)` loop of
`make_authenticated_request`. `endpoint a` is the outcome of the `a`-th
send; `refreshes k` is the vendor's answer to the `k`-th 401-triggered
refresh exchange; `fuel` is the number of loop iterations left
(`max_retries + 1 - a`). On a 401 with attempts remaining the token is
refreshed and, on success, the `Authorization` header is rebuilt from the
new configuration and the loop continues; on refresh failure the 401
response is returned. On timeout or other exception with attempts
remaining the loop sleeps `2 ^ attempt` and retries; otherwise the
exception is re-raised. -/
def requestLoop (endpoint : Nat → Outcome) (refreshes : Nat → Except Unit TokenResp)
    (now : Int) (maxRetries : Nat) :
    Nat → Nat → Nat → GState → ExecResult
  | 0, _, _, s => ⟨.err .exhausted, 0, [], [], 0, s⟩
  | fuel + 1, a, rIdx, s =>
    match endpoint a with
    | .resp status =>
      if status = 401 ∧ a < maxRetries then
        let r := refresh_access_token s now (refreshes rIdx)
        if r.success then
          let rest := requestLoop endpoint refreshes now maxRetries fuel (a + 1) (rIdx + 1) r.state
          ⟨rest.result, rest.attempts + 1, rest.delays,
            s.config.access_token :: rest.tokens, rest.refreshCalls + 1, rest.state⟩
        else ⟨.ok status, 1, [], [s.config.access_token], 1, r.state⟩
      else ⟨.ok status, 1, [], [s.config.access_token], 0, s⟩
    | .timeout =>
      if a < maxRetries then
        let rest := requestLoop endpoint refreshes now maxRetries fuel (a + 1) rIdx s
        ⟨rest.result, rest.attempts + 1, 2 ^ a :: rest.delays,
          s.config.access_token :: rest.tokens, rest.refreshCalls, rest.state⟩
      else ⟨.err .timeout, 1, [], [s.config.access_token], 0, s⟩
    | .netErr =>
      if a < maxRetries then
        let rest := requestLoop endpoint refreshes now maxRetries fuel (a + 1) rIdx s
        ⟨rest.result, rest.attempts + 1, 2 ^ a :: rest.delays,
          s.config.access_token :: rest.tokens, rest.refreshCalls, rest.state⟩
      else ⟨.err .netErr, 1, [], [s.config.access_token], 0, s⟩

/-- Embeds `make_authenticated_request(method, url, ..., max_retries)`:
first `ensure_valid_token` (its own vendor exchange, if any, answered by
`ensureResp`); on failure raise `TokenRefreshError`, otherwise run the
retry loop with `max_retries + 1` iterations available. -/
def make_authenticated_request (s : GState) (now : Int)
    (ensureResp : Except Unit TokenResp) (endpoint : Nat → Outcome)
    (refreshes : Nat → Except Unit TokenResp) (maxRetries : Nat) : ExecResult :=
  let e := ensure_valid_token s now ensureResp
  if e.success then
    requestLoop endpoint refreshes now maxRetries (maxRetries + 1) 0 0 e.state
  else
    ⟨.err .tokenUnavailable, 0, [], [], 0, e.state⟩

/-! ### Background device-status poll (`poll_device_status`) -/

/-- Response to the discovery request: HTTP status and the
`payload.devices` list (each device abstracted as an opaque blob). -/
structure DiscResp where
  status : Nat
  devices : List String
  deriving Repr, DecidableEq

/-- Response to the batched status request: HTTP status and its JSON body
(abstracted as an opaque blob). -/
structure StatResp where
  status : Nat
  body : String
  deriving Repr, DecidableEq

/-- The globals `latest_devices`, `latest_status`, `last_status_update`
of src/gateway/main.py (`latest_status` starts as the empty dict,
modelled as `none`). -/
structure PollState where
  latest_devices : List String
  latest_status : Option String
  last_status_update : Int
  deriving Repr, DecidableEq

/-- Embeds `poll_device_status()`: one run of the background poll job.
`ensureOk` abstracts the boolean returned by the initial
`ensure_valid_token()` call; `disc` and `stat` are the outcomes of the two
`make_authenticated_request` calls (`.error ()` standing for any raised
exception, which the surrounding `try/except` swallows). Note that
`latest_devices` is assigned as soon as discovery returns 200, before the
status request is made. -/
def poll_device_status (p : PollState) (now : Int) (ensureOk : Bool)
    (disc : Except Unit DiscResp) (stat : Except Unit StatResp) : PollState :=
  if ensureOk then
    match disc with
    | .error _ => p
    | .ok dr =>
      if dr.status = 200 then
        let p1 := { p with latest_devices := dr.devices }
        if dr.devices.isEmpty then p1
        else
          match stat with
          | .error _ => p1
          | .ok sr =>
            if sr.status = 200 then
              { p1 with latest_status := some sr.body, last_status_update := now }
            else p1
      else p
  else p

/-! ### Home Assistant coordinator merge
(`UtecDataUpdateCoordinator._async_update_data`) -/

/-- A JSON object with string values, as an association list (Python
dict abstracted by its key/value pairs). -/
abbrev Rec := List (String × String)

/-- Python `r.get(k)`: first value bound to `k`, if any. -/
def rlookup (r : Rec) (k : String) : Option String :=
  (r.find? (fun p => p.1 == k)).map (fun p => p.2)

/-- Python `base.update(upd)` on a copy of `base`: keys of `upd`
override those of `base`; keys only in `upd` are appended. -/
def rupdate (base upd : Rec) : Rec :=
  base.map (fun p =>
    match rlookup upd p.1 with
    | some v => (p.1, v)
    | none => p)
  ++ upd.filter (fun q => ! base.any (fun p => p.1 == q.1))

/-- Python `devices[device_id] = device_info` on the accumulating dict:
replace an existing binding for the key, else append. -/
def snapInsert (m : List (String × Rec)) (k : String) (v : Rec) :
    List (String × Rec) :=
  if m.any (fun p => p.1 == k) then
    m.map (fun p => if p.1 == k then (k, v) else p)
  else m ++ [(k, v)]

/-- Outcome of one per-device `POST /api/status` lookup inside the
coordinator's update: the `try` body raised, or it produced the
`payload.devices` list of the parsed response (`[]` also covers a body
without a `payload.devices` key — either way no overlay happens). -/
inductive StatusLookup where
  | raised
  | found (devs : List Rec)
  deriving Repr, DecidableEq

/-- The per-device branch of `_async_update_data`: start from the
discovery record, overlay the first status entry when the lookup
returned a non-empty `payload.devices`; on a raised lookup keep the
discovery record. -/
def merge_device (device : Rec) (res : StatusLookup) : Rec :=
  match res with
  | .raised => device
  | .found [] => device
  | .found (sd :: _) => rupdate device sd

/-- One iteration of the device loop of `_async_update_data`: skip the
device unless it has a truthy `id`, then store the merged record under
that id. -/
def update_step (statusOf : String → StatusLookup)
    (acc : List (String × Rec)) (device : Rec) : List (String × Rec) :=
  match rlookup device "id" with
  | none => acc
  | some did =>
    if did = "" then acc
    else snapInsert acc did (merge_device device (statusOf did))

/-- The device loop of `_async_update_data` over the discovery list.
`statusOf` gives each device id's status-lookup outcome. -/
def async_update_data (deviceList : List Rec) (statusOf : String → StatusLookup) :
    List (String × Rec) :=
  deviceList.foldl (update_step statusOf) []

/-- The `id` a discovery record would be stored under (empty string when
the record has none). -/
def idOf (d : Rec) : String :=
  (rlookup d "id").getD ""

/-! ### Two concurrent `ensure_valid_token` callers

`asyncio` interleaves coroutines at `await` points. Within
`ensure_valid_token` / `refresh_access_token` the only suspension point
is the `await client.post(...)` token exchange, so a caller runs
synchronously from entry up to issuing its vendor exchange, suspends,
and later resumes to apply its own response. The model below replays
that structure for two callers sharing the gateway state. -/

/-- Progress of one `ensure_valid_token` caller: not yet run, suspended
on its own vendor token exchange, or finished with a boolean result. -/
inductive Phase where
  | start
  | awaitingRefresh
  | done (ok : Bool)
  deriving Repr, DecidableEq

/-- Shared state of the two-caller scenario: gateway state, the total
number of refresh-token exchanges issued to the vendor, and each
caller's progress. -/
structure World where
  s : GState
  vendorCalls : Nat
  t1 : Phase
  t2 : Phase
  deriving Repr, DecidableEq

/-- Advance one caller by one scheduler slice. From `start` it runs the
synchronous prefix of `ensure_valid_token` (token-present check, expiry
check, refresh-token check) and, when a refresh is needed, issues its
vendor exchange and suspends; from `awaitingRefresh` it applies the
response `resp` it received, exactly as the code after the `await` in
`refresh_access_token` does. -/
def taskStep (now : Int) (resp : Except Unit TokenResp)
    (g : GState) (calls : Nat) (ph : Phase) : GState × Nat × Phase :=
  match ph with
  | .done b => (g, calls, .done b)
  | .start =>
    if g.config.access_token = "" then (g, calls, .done false)
    else if is_token_expired g.config now then
      if g.config.refresh_token = "" then (g, calls, .done false)
      else (g, calls + 1, .awaitingRefresh)
    else (g, calls, .done true)
  | .awaitingRefresh =>
    match resp with
    | .error _ => (g, calls, .done false)
    | .ok r =>
      if r.status = 200 then (apply_token_success g now r, calls, .done true)
      else (g, calls, .done false)

/-- One scheduler step of the world: run the chosen caller for one slice
(`true` = first caller). `resp1`/`resp2` are the responses the vendor
gives to each caller's own exchange. -/
def worldStep (now : Int) (resp1 resp2 : Except Unit TokenResp)
    (w : World) (pick : Bool) : World :=
  if pick then
    let r := taskStep now resp1 w.s w.vendorCalls w.t1
    { s := r.1, vendorCalls := r.2.1, t1 := r.2.2, t2 := w.t2 }
  else
    let r := taskStep now resp2 w.s w.vendorCalls w.t2
    { s := r.1, vendorCalls := r.2.1, t1 := w.t1, t2 := r.2.2 }

/-- Run a whole schedule (a list of which-caller choices). -/
def runSchedule (now : Int) (resp1 resp2 : Except Unit TokenResp)
    (w : World) (picks : List Bool) : World :=
  picks.foldl (worldStep now resp1 resp2) w

/-! ### Authorization-code exchange (`exchange_code`) -/

/-- Visible outcome of the `/api/oauth/exchange` handler: a new gateway
state on success, HTTP 400 when the request carries no code, or HTTP 500
(the blanket `except Exception` converts both transport errors and the
`HTTPException` raised for a non-200 vendor response into a 500). -/
inductive ExchangeOut where
  | ok (s : GState)
  | badRequest
  | internalError
  deriving Repr, DecidableEq

/-- Embeds `exchange_code(request)`: reject a missing/empty code with 400; on a
200 vendor response store both tokens (empty string when a field is
absent), set the expiration only when `expires_in` is present, save, and
succeed; any raised exception — including the `HTTPException` for a
non-200 vendor status, which the `try` block itself raises — becomes a
500. -/
def exchange_code (s : GState) (now : Int) (code : Option String)
    (resp : Except Unit TokenResp) : ExchangeOut :=
  match code with
  | none => .badRequest
  | some c =>
    if c = "" then .badRequest
    else
      match resp with
      | .error _ => .internalError
      | .ok r =>
        if r.status = 200 then
          let c1 := { s.config with
            access_token := r.access_token.getD "",
            refresh_token := r.refresh_token.getD "" }
          let s1 := { s with config := c1 }
          let s2 :=
            match r.expires_in with
            | some n => set_token_expiration s1 now n
            | none => s1
          .ok (save_config s2)
        else .internalError

/-! ### Sample states used to exercise the definitions -/

/-- A gateway holding non-empty tokens whose expiration (second 1000000)
is far in the future of the sample clock. -/
def stValid : GState :=
  { config := ⟨"tok", "ref", "ak", "sk", some 1000000, 5⟩,
    disk := ⟨"tok", "ref", "ak", "sk", some 1000000, 5⟩ }

/-- A gateway with an empty access token but a refresh token and a
far-future expiration on record. -/
def stNoAccess : GState :=
  { config := ⟨"", "ref", "ak", "sk", some 1000000, 5⟩,
    disk := ⟨"", "ref", "ak", "sk", some 1000000, 5⟩ }

/-- A gateway whose recorded expiration (second 0) is already past. -/
def stExpired : GState :=
  { config := ⟨"old", "ref", "ak", "sk", some 0, 5⟩,
    disk := ⟨"old", "ref", "ak", "sk", some 0, 5⟩ }

/-- A freshly installed gateway: no tokens, no expiration on record. -/
def stFresh : GState :=
  { config := ⟨"", "", "ak", "sk", none, 5⟩,
    disk := ⟨"", "", "ak", "sk", none, 5⟩ }

/-! ## Token lifecycle theorems -/

/-- C4: `is_token_expired` is true when no expiration is recorded; with a
recorded expiration `e` it is false exactly when
`now + refresh_buffer < e` (buffer in seconds), and true at the boundary
`now + refresh_buffer = e`. -/
theorem is_token_expired_spec (c : Config) (now : Int) :
    (c.token_expires_at = none → is_token_expired c now = true) ∧
    (∀ e, c.token_expires_at = some e →
      ((is_token_expired c now = false ↔ now + 60 * c.refresh_buffer_minutes < e) ∧
        (now + 60 * c.refresh_buffer_minutes = e → is_token_expired c now = true))) := by
  refine ⟨fun h => ?_, fun e h => ⟨?_, fun hb => ?_⟩⟩
  · simp [is_token_expired, get_token_expiration, h]
  · simp only [is_token_expired, get_token_expiration, h, decide_eq_false_iff_not]
    omega
  · simp only [is_token_expired, get_token_expiration, h, decide_eq_true_eq]
    omega

/-- C4 witness: no expiration → expired; expiration 1000000 with a
5-minute buffer is not yet expired at second 0 and expired exactly at
second 999700 (the boundary). -/
theorem is_token_expired_spec_witness :
    is_token_expired ⟨"tok", "ref", "ak", "sk", none, 5⟩ 0 = true ∧
    is_token_expired stValid.config 0 = false ∧
    is_token_expired stValid.config 999700 = true := by
  refine ⟨(is_token_expired_spec ⟨"tok", "ref", "ak", "sk", none, 5⟩ 0).1 rfl, ?_, ?_⟩
  · exact ((is_token_expired_spec stValid.config 0).2 1000000 rfl).1.mpr (by decide)
  · exact ((is_token_expired_spec stValid.config 999700).2 1000000 rfl).2 (by decide)

/-- C3 counterexample: with an empty stored access token and a far-future
expiration, `is_token_expired` is false yet `ensure_valid_token` returns
false (and makes no vendor call) instead of the claimed true. -/
theorem ensure_valid_counterexample :
    is_token_expired stNoAccess.config 0 = false ∧
    (ensure_valid_token stNoAccess 0 (.error ())).success = false ∧
    (ensure_valid_token stNoAccess 0 (.error ())).vendorCalls = 0 := by
  decide

/-- C3 (amended): provided a non-empty access token is stored, when
`is_token_expired` is false `ensure_valid_token` returns true with no
vendor call and an unchanged state, and when it is true the call is
exactly `refresh_access_token` (same state, result and vendor calls). -/
theorem ensure_valid_token_spec (s : GState) (now : Int)
    (resp : Except Unit TokenResp) (h : s.config.access_token ≠ "") :
    (is_token_expired s.config now = false →
      ensure_valid_token s now resp = ⟨s, true, 0⟩) ∧
    (is_token_expired s.config now = true →
      ensure_valid_token s now resp = refresh_access_token s now resp) := by
  refine ⟨fun he => ?_, fun he => ?_⟩ <;> simp [ensure_valid_token, h, he]

/-- C3 witness: an expired gateway's `ensure_valid_token` is exactly its
`refresh_access_token`, and a valid one returns true untouched. -/
theorem ensure_valid_token_spec_witness :
    ensure_valid_token stExpired 100 (.error ()) =
      refresh_access_token stExpired 100 (.error ()) ∧
    ensure_valid_token stValid 0 (.error ()) = ⟨stValid, true, 0⟩ := by
  exact ⟨(ensure_valid_token_spec stExpired 100 (.error ()) (by decide)).2 (by decide),
    (ensure_valid_token_spec stValid 0 (.error ()) (by decide)).1 (by decide)⟩

/-- A failing refresh (transport error or non-200) leaves the state
untouched and returns false. -/
theorem refresh_fail_aux (s : GState) (now : Int) (resp : Except Unit TokenResp)
    (h : resp = .error () ∨ ∃ r, resp = .ok r ∧ r.status ≠ 200) :
    (refresh_access_token s now resp).state = s ∧
    (refresh_access_token s now resp).success = false := by
  rcases h with rfl | ⟨r, rfl, hr⟩
  · by_cases hrt : s.config.refresh_token = "" <;> simp [refresh_access_token, hrt]
  · by_cases hrt : s.config.refresh_token = "" <;> simp [refresh_access_token, hrt, hr]

/-- C5: any refresh answered by a transport error or a non-200 response
leaves the credential state exactly as it was and returns false, and a
second failing refresh still leaves the original state unchanged. -/
theorem refresh_failure_spec (s : GState) (now now2 : Int)
    (resp resp2 : Except Unit TokenResp)
    (h : resp = .error () ∨ ∃ r, resp = .ok r ∧ r.status ≠ 200)
    (h2 : resp2 = .error () ∨ ∃ r, resp2 = .ok r ∧ r.status ≠ 200) :
    (refresh_access_token s now resp).state = s ∧
    (refresh_access_token s now resp).success = false ∧
    (refresh_access_token (refresh_access_token s now resp).state now2 resp2).state = s ∧
    (refresh_access_token (refresh_access_token s now resp).state now2 resp2).success
      = false := by
  obtain ⟨h1s, h1f⟩ := refresh_fail_aux s now resp h
  obtain ⟨h2s, h2f⟩ := refresh_fail_aux s now2 resp2 h2
  rw [h1s]
  exact ⟨rfl, h1f, h2s, h2f⟩

/-- C5 witness: a transport failure then a 500 response leave the sample
gateway untouched. -/
theorem refresh_failure_spec_witness :
    (refresh_access_token stValid 0 (.error ())).state = stValid ∧
    (refresh_access_token stValid 0 (.error ())).success = false ∧
    (refresh_access_token (refresh_access_token stValid 0 (.error ())).state 1
        (.ok ⟨500, none, none, none⟩)).state = stValid ∧
    (refresh_access_token (refresh_access_token stValid 0 (.error ())).state 1
        (.ok ⟨500, none, none, none⟩)).success = false :=
  refresh_failure_spec stValid 0 1 (.error ()) (.ok ⟨500, none, none, none⟩)
    (Or.inl rfl) (Or.inr ⟨⟨500, none, none, none⟩, rfl, by decide⟩)

/-- C6: a refresh answered with HTTP 200 returns true, stores the
response's access token, replaces the refresh token exactly when the
response carries one, sets the expiration to `now + expires_in` (3600 s
when absent), and persists the configuration. -/
theorem refresh_success_spec (s : GState) (now : Int) (r : TokenResp) (t : String)
    (hrt : s.config.refresh_token ≠ "") (hst : r.status = 200)
    (hat : r.access_token = some t) :
    (refresh_access_token s now (.ok r)).success = true ∧
    (refresh_access_token s now (.ok r)).state.config.access_token = t ∧
    (∀ rt, r.refresh_token = some rt →
      (refresh_access_token s now (.ok r)).state.config.refresh_token = rt) ∧
    (r.refresh_token = none →
      (refresh_access_token s now (.ok r)).state.config.refresh_token
        = s.config.refresh_token) ∧
    (refresh_access_token s now (.ok r)).state.config.token_expires_at
      = some (now + r.expires_in.getD 3600) ∧
    (refresh_access_token s now (.ok r)).state.disk
      = (refresh_access_token s now (.ok r)).state.config := by
  rcases hrf : r.refresh_token with _ | rt <;>
    rcases hei : r.expires_in with _ | n <;>
    simp [refresh_access_token, apply_token_success, set_token_expiration,
      save_config, hrt, hst, hat, hrf, hei]

/-- C6 witness: a 200 response carrying a rotated refresh token and
`expires_in = 7200` updates and persists the sample gateway. -/
theorem refresh_success_spec_witness :
    (refresh_access_token stExpired 100 (.ok ⟨200, some "new", some "r2", some 7200⟩)).success
      = true ∧
    (refresh_access_token stExpired 100
        (.ok ⟨200, some "new", some "r2", some 7200⟩)).state.config.access_token = "new" ∧
    (refresh_access_token stExpired 100
        (.ok ⟨200, some "new", some "r2", some 7200⟩)).state.config.refresh_token = "r2" ∧
    (refresh_access_token stExpired 100
        (.ok ⟨200, some "new", some "r2", some 7200⟩)).state.config.token_expires_at
      = some 7300 ∧
    (refresh_access_token stExpired 100
        (.ok ⟨200, some "new", some "r2", some 7200⟩)).state.disk
      = (refresh_access_token stExpired 100
          (.ok ⟨200, some "new", some "r2", some 7200⟩)).state.config := by
  have h := refresh_success_spec stExpired 100 ⟨200, some "new", some "r2", some 7200⟩
    "new" (by decide) rfl rfl
  exact ⟨h.1, h.2.1, h.2.2.1 "r2" rfl, by simpa using h.2.2.2.2.1, h.2.2.2.2.2⟩

/-- C10: a successful authorization-code exchange whose 200 response has
no `expires_in` stores the new tokens but leaves `token_expires_at`
unset, so `is_token_expired` is true at every instant afterwards and the
next `ensure_valid_token` call is exactly a refresh attempt. -/
theorem exchange_code_no_expiry_spec (s : GState) (now : Int) (c : String)
    (r : TokenResp) (t : String)
    (hc : c ≠ "") (hst : r.status = 200) (hei : r.expires_in = none)
    (hat : r.access_token = some t) (ht : t ≠ "")
    (hprev : s.config.token_expires_at = none) :
    ∃ s2, exchange_code s now (some c) (.ok r) = .ok s2 ∧
      s2.config.access_token = t ∧
      s2.config.refresh_token = r.refresh_token.getD "" ∧
      s2.config.token_expires_at = none ∧
      (∀ m, is_token_expired s2.config m = true) ∧
      (∀ m resp2, ensure_valid_token s2 m resp2 = refresh_access_token s2 m resp2) := by
  refine ⟨save_config { s with config := { s.config with
      access_token := r.access_token.getD "",
      refresh_token := r.refresh_token.getD "" } }, ?_, ?_, ?_, ?_, fun m => ?_,
      fun m resp2 => ?_⟩
  · simp [exchange_code, hc, hst, hei]
  · simp [save_config, hat]
  · simp [save_config]
  · simp [save_config, hprev]
  · simp [is_token_expired, get_token_expiration, save_config, hprev]
  · simp [ensure_valid_token, save_config, hat, ht, is_token_expired,
      get_token_expiration, hprev]

/-- C10 witness: on a fresh gateway, exchanging a code for a 200 response
without `expires_in` stores the tokens, leaves the expiry unset, and
leaves the token reported expired. -/
theorem exchange_code_no_expiry_spec_witness :
    ∃ s2, exchange_code stFresh 50 (some "authcode")
        (.ok ⟨200, some "newtok", some "newref", none⟩) = .ok s2 ∧
      s2.config.access_token = "newtok" ∧
      s2.config.refresh_token = (some "newref").getD "" ∧
      s2.config.token_expires_at = none ∧
      (∀ m, is_token_expired s2.config m = true) ∧
      (∀ m resp2, ensure_valid_token s2 m resp2 = refresh_access_token s2 m resp2) :=
  exchange_code_no_expiry_spec stFresh 50 "authcode"
    ⟨200, some "newtok", some "newref", none⟩ "newtok"
    (by decide) rfl rfl rfl (by decide) rfl

/-! ## Concurrency: two `ensure_valid_token` callers -/

/-- C1: the failing interleaving. Both callers start with the same
expired credential; the second starts while the first is awaiting the
vendor's answer to its refresh exchange. The code issues two
refresh-token exchanges to the vendor (`vendorCalls = 2`), each caller
applying its own response — there is no single-flight guard. -/
theorem two_concurrent_refreshes :
    (runSchedule 100 (.ok ⟨200, some "new1", some "r1", some 3600⟩)
        (.ok ⟨200, some "new2", some "r2", some 3600⟩)
        ⟨stExpired, 0, .start, .start⟩ [true, false, true, false]).vendorCalls = 2 ∧
    (runSchedule 100 (.ok ⟨200, some "new1", some "r1", some 3600⟩)
        (.ok ⟨200, some "new2", some "r2", some 3600⟩)
        ⟨stExpired, 0, .start, .start⟩ [true, false, true, false]).t1 = .done true ∧
    (runSchedule 100 (.ok ⟨200, some "new1", some "r1", some 3600⟩)
        (.ok ⟨200, some "new2", some "r2", some 3600⟩)
        ⟨stExpired, 0, .start, .start⟩ [true, false, true, false]).t2 = .done true := by
  decide

/-! ## Background poll theorems -/

/-- C2 counterexample: discovery succeeds with a new device list but the
status query hits a transport error; the resulting state is neither the
previous snapshot nor a full replacement — the new device list is paired
with the old status. -/
theorem poll_mix_counterexample :
    poll_device_status ⟨["oldDev"], some "oldStatus", 5⟩ 6 true
        (.ok ⟨200, ["newDev"]⟩) (.error ()) ≠ ⟨["oldDev"], some "oldStatus", 5⟩ ∧
    (poll_device_status ⟨["oldDev"], some "oldStatus", 5⟩ 6 true
        (.ok ⟨200, ["newDev"]⟩) (.error ())).latest_devices = ["newDev"] ∧
    (poll_device_status ⟨["oldDev"], some "oldStatus", 5⟩ 6 true
        (.ok ⟨200, ["newDev"]⟩) (.error ())).latest_status = some "oldStatus" := by
  decide

/-- C2 (amended): a poll run never raises; the whole snapshot is
unchanged when the token check or discovery fails, but once discovery
returns 200 the device list is committed immediately: if the devices
list is empty or the status query fails, the old status and update time
are kept alongside the new device list; only a 200 status response
replaces status and update time as well. -/
theorem poll_device_status_spec (p : PollState) (now : Int) (ensureOk : Bool)
    (disc : Except Unit DiscResp) (stat : Except Unit StatResp) :
    (ensureOk = false → poll_device_status p now ensureOk disc stat = p) ∧
    (disc = .error () → poll_device_status p now ensureOk disc stat = p) ∧
    (∀ dr, disc = .ok dr → dr.status ≠ 200 →
      poll_device_status p now ensureOk disc stat = p) ∧
    (∀ dr, ensureOk = true → disc = .ok dr → dr.status = 200 → dr.devices = [] →
      poll_device_status p now ensureOk disc stat = { p with latest_devices := [] }) ∧
    (∀ dr, ensureOk = true → disc = .ok dr → dr.status = 200 → dr.devices ≠ [] →
      (stat = .error () ∨ ∃ sr, stat = .ok sr ∧ sr.status ≠ 200) →
      poll_device_status p now ensureOk disc stat
        = { p with latest_devices := dr.devices }) ∧
    (∀ dr sr, ensureOk = true → disc = .ok dr → dr.status = 200 → dr.devices ≠ [] →
      stat = .ok sr → sr.status = 200 →
      poll_device_status p now ensureOk disc stat = ⟨dr.devices, some sr.body, now⟩) := by
  refine ⟨fun h0 => ?_, fun hd => ?_, fun dr hd hs => ?_, fun dr h0 hd hs hdev => ?_,
    fun dr h0 hd hs hdev hfail => ?_, fun dr sr h0 hd hs hdev hst hss => ?_⟩
  · simp [poll_device_status, h0]
  · cases ensureOk <;> simp [poll_device_status, hd]
  · cases ensureOk <;> simp [poll_device_status, hd, hs]
  · subst h0; subst hd
    simp [poll_device_status, hs, hdev]
  · subst h0; subst hd
    rcases hfail with rfl | ⟨sr, rfl, hsf⟩
    · simp [poll_device_status, hs, List.isEmpty_iff, hdev]
    · simp [poll_device_status, hs, List.isEmpty_iff, hdev, hsf]
  · subst h0; subst hd; subst hst
    simp [poll_device_status, hs, List.isEmpty_iff, hdev, hss]

/-- C2 witness: the new-devices-with-old-status outcome derived through
the amended specification. -/
theorem poll_device_status_spec_witness :
    poll_device_status ⟨["oldDev"], some "oldStatus", 5⟩ 6 true
        (.ok ⟨200, ["newDev"]⟩) (.error ()) = ⟨["newDev"], some "oldStatus", 5⟩ := by
  have h := (poll_device_status_spec ⟨["oldDev"], some "oldStatus", 5⟩ 6 true
      (.ok ⟨200, ["newDev"]⟩) (.error ())).2.2.2.2.1 ⟨200, ["newDev"]⟩
      rfl rfl rfl (by decide) (Or.inl rfl)
  simpa using h

/-! ## Request executor theorems -/

/-- A refresh that returns false leaves the gateway state unchanged. -/
theorem refresh_not_success (s : GState) (now : Int) (resp : Except Unit TokenResp)
    (h : (refresh_access_token s now resp).success = false) :
    (refresh_access_token s now resp).state = s := by
  by_cases hrt : s.config.refresh_token = ""
  · simp [refresh_access_token, hrt]
  · rcases resp with _ | r
    · simp [refresh_access_token, hrt]
    · by_cases hst : r.status = 200
      · simp [refresh_access_token, hrt, hst] at h
      · simp [refresh_access_token, hrt, hst]

/-- Lemma: `apply_token_success` stores the response's access token (empty
string when absent). -/
theorem apply_token_success_access (s : GState) (now : Int) (td : TokenResp) :
    (apply_token_success s now td).config.access_token = td.access_token.getD "" := by
  rcases hrf : td.refresh_token with _ | rt <;>
    rcases hei : td.expires_in with _ | n <;>
    simp [apply_token_success, set_token_expiration, save_config, hrf, hei]

/-- With a valid non-empty token, `ensure_valid_token` passes through. -/
theorem ensure_valid_pass (s : GState) (now : Int) (resp : Except Unit TokenResp)
    (hA : s.config.access_token ≠ "") (hE : is_token_expired s.config now = false) :
    ensure_valid_token s now resp = ⟨s, true, 0⟩ := by
  simp [ensure_valid_token, hA, hE]

/-- C7: when the first attempt of `make_authenticated_request` receives a
401 and retries remain, one refresh is forced; if that refresh succeeds
(200 with a token) the request is retried once with the fresh bearer
token, so a 401-then-200 endpoint yields the 200 after exactly one
refresh and one retry; if the refresh fails, the 401 is returned after a
single attempt with the state unchanged. -/
theorem make_request_401_spec (s : GState) (now : Int)
    (ensureResp : Except Unit TokenResp) (endpoint : Nat → Outcome)
    (refreshes : Nat → Except Unit TokenResp) (maxRetries : Nat)
    (hA : s.config.access_token ≠ "") (hE : is_token_expired s.config now = false)
    (hmr : 0 < maxRetries) (h0 : endpoint 0 = .resp 401) :
    (∀ r t, refreshes 0 = .ok r → r.status = 200 → r.access_token = some t →
      s.config.refresh_token ≠ "" → endpoint 1 = .resp 200 →
      make_authenticated_request s now ensureResp endpoint refreshes maxRetries =
        ⟨.ok 200, 2, [], [s.config.access_token, t], 1, apply_token_success s now r⟩) ∧
    ((refresh_access_token s now (refreshes 0)).success = false →
      make_authenticated_request s now ensureResp endpoint refreshes maxRetries =
        ⟨.ok 401, 1, [], [s.config.access_token], 1, s⟩) := by
  obtain ⟨k, rfl⟩ : ∃ k, maxRetries = k + 1 :=
    ⟨maxRetries - 1, (Nat.succ_pred_eq_of_pos hmr).symm⟩
  have hens := ensure_valid_pass s now ensureResp hA hE
  constructor
  · intro r t hro hst hat hrt h1
    have hrefresh : refresh_access_token s now (refreshes 0) =
        ⟨apply_token_success s now r, true, 1⟩ := by
      simp [refresh_access_token, hro, hrt, hst]
    simp [make_authenticated_request, hens, requestLoop, h0, h1, hrefresh,
      apply_token_success_access, hat]
  · intro hrf
    have hstate := refresh_not_success s now (refreshes 0) hrf
    simp [make_authenticated_request, hens, requestLoop, h0, hrf, hstate]

/-- C7 witness: against an endpoint answering 401 then 200, with a
refresh exchange that succeeds, the request returns the 200 in two
attempts with one refresh and the fresh token on the retry. -/
theorem make_request_401_spec_witness :
    make_authenticated_request stValid 0 (.error ())
        (fun a => if a = 0 then .resp 401 else .resp 200)
        (fun _ => .ok ⟨200, some "fresh", none, some 3600⟩) 2 =
      ⟨.ok 200, 2, [], ["tok", "fresh"], 1,
        apply_token_success stValid 0 ⟨200, some "fresh", none, some 3600⟩⟩ :=
  (make_request_401_spec stValid 0 (.error ())
      (fun a => if a = 0 then .resp 401 else .resp 200)
      (fun _ => .ok ⟨200, some "fresh", none, some 3600⟩) 2
      (by decide) (by decide) (by decide) rfl).1
    ⟨200, some "fresh", none, some 3600⟩ "fresh" rfl rfl rfl (by decide) rfl

/-- Retry loop under an endpoint that always times out: every iteration
sleeps `2 ^ attempt` and retries until the final attempt re-raises. -/
theorem requestLoop_timeout_aux (endpoint : Nat → Outcome)
    (refreshes : Nat → Except Unit TokenResp) (now : Int) (maxRetries : Nat)
    (hT : ∀ i, endpoint i = .timeout) :
    ∀ (fuel a rIdx : Nat) (s : GState), a + fuel = maxRetries + 1 → 0 < fuel →
      requestLoop endpoint refreshes now maxRetries fuel a rIdx s =
        ⟨.err .timeout, fuel, (List.range' a (fuel - 1)).map (fun x => 2 ^ x),
          List.replicate fuel s.config.access_token, 0, s⟩ := by
  intro fuel
  induction fuel with
  | zero =>
    intro a rIdx s ha hf
    exact absurd hf (lt_irrefl 0)
  | succ f ih =>
    intro a rIdx s ha hf
    by_cases haa : a < maxRetries
    · have hfa : 0 < f := by omega
      simp only [requestLoop, hT a]
      rw [if_pos haa, ih (a + 1) rIdx s (by omega) hfa]
      obtain ⟨g, rfl⟩ : ∃ g, f = g + 1 := ⟨f - 1, by omega⟩
      simp [List.range'_succ, List.replicate_succ]
    · have hf0 : f = 0 := by omega
      subst hf0
      simp [requestLoop, hT a, haa]

/-- C8: with a valid token and an endpoint that times out on every
attempt, `make_authenticated_request` makes exactly `maxRetries + 1`
attempts, sleeps `2 ^ attempt` after each failed attempt that still has
retries left (attempts counted from 0), performs no refresh, leaves the
state unchanged and re-raises the timeout. -/
theorem make_request_timeout_spec (s : GState) (now : Int)
    (ensureResp : Except Unit TokenResp) (endpoint : Nat → Outcome)
    (refreshes : Nat → Except Unit TokenResp) (maxRetries : Nat)
    (hA : s.config.access_token ≠ "") (hE : is_token_expired s.config now = false)
    (hT : ∀ i, endpoint i = .timeout) :
    make_authenticated_request s now ensureResp endpoint refreshes maxRetries =
      ⟨.err .timeout, maxRetries + 1, (List.range maxRetries).map (fun a => 2 ^ a),
        List.replicate (maxRetries + 1) s.config.access_token, 0, s⟩ := by
  have hens := ensure_valid_pass s now ensureResp hA hE
  have h := requestLoop_timeout_aux endpoint refreshes now maxRetries hT
    (maxRetries + 1) 0 0 s (by omega) (by omega)
  simp only [make_authenticated_request, hens]
  simpa [List.range_eq_range'] using h

/-- C8 witness: with the default `max_retries = 2` the request makes 3
attempts with delays `[1, 2]` and surfaces the timeout. -/
theorem make_request_timeout_spec_witness :
    make_authenticated_request stValid 0 (.error ()) (fun _ => .timeout)
        (fun _ => .error ()) 2 =
      ⟨.err .timeout, 3, [1, 2], ["tok", "tok", "tok"], 0, stValid⟩ := by
  have h := make_request_timeout_spec stValid 0 (.error ()) (fun _ => .timeout)
    (fun _ => .error ()) 2 (by decide) (by decide) (fun i => rfl)
  rw [h]
  decide

/-! ## Coordinator merge theorems -/

/-- C9 counterexample: a discovery list with one device that has no `id`
yields an empty snapshot — the device is dropped, not one entry per
discovered device. -/
theorem merge_dropped_counterexample :
    async_update_data [[("name", "Front Door")]] (fun _ => .found []) = [] ∧
    ([[("name", "Front Door")]] : List Rec).length = 1 := by
  decide

/-- Inserting under a key absent from the accumulator appends. -/
theorem snapInsert_fresh (m : List (String × Rec)) (k : String) (v : Rec)
    (h : ∀ p ∈ m, p.1 ≠ k) : snapInsert m k v = m ++ [(k, v)] := by
  have hany : m.any (fun p => p.1 == k) = false := by
    rw [List.any_eq_false]
    intro p hp
    simpa using h p hp
  simp [snapInsert, hany]

/-- The device fold over a list of devices with fresh, truthy, pairwise
distinct ids appends one merged entry per device. -/
theorem async_update_go (statusOf : String → StatusLookup) :
    ∀ (L : List Rec) (acc : List (String × Rec)),
      (∀ d ∈ L, (rlookup d "id").isSome ∧ idOf d ≠ "") →
      (L.map idOf).Nodup →
      (∀ d ∈ L, ∀ p ∈ acc, p.1 ≠ idOf d) →
      L.foldl (update_step statusOf) acc =
        acc ++ L.map (fun d => (idOf d, merge_device d (statusOf (idOf d)))) := by
  intro L
  induction L with
  | nil => intro acc _ _ _; simp
  | cons d L ih =>
    intro acc hid hnd hdisj
    obtain ⟨hsome, hne⟩ := hid d (List.mem_cons_self d L)
    obtain ⟨i, hi⟩ := Option.isSome_iff_exists.mp hsome
    have hidof : idOf d = i := by simp [idOf, hi]
    have hnd' : (∀ x ∈ L, ¬ idOf x = idOf d) ∧ (List.map idOf L).Nodup := by
      simpa using hnd
    have hstep : update_step statusOf acc d
        = acc ++ [(i, merge_device d (statusOf i))] := by
      simp only [update_step, hi]
      rw [if_neg (hidof ▸ hne)]
      exact snapInsert_fresh acc i _
        (fun p hp => hidof ▸ hdisj d (List.mem_cons_self d L) p hp)
    rw [List.foldl_cons, hstep,
      ih (acc ++ [(i, merge_device d (statusOf i))])
        (fun d' hd' => hid d' (List.mem_cons_of_mem d hd'))
        hnd'.2
        ?_]
    · simp [hidof]
    · intro d' hd' p hp
      rcases List.mem_append.mp hp with hp | hp
      · exact hdisj d' (List.mem_cons_of_mem d hd') p hp
      · rcases List.mem_singleton.mp hp with rfl
        rw [show ((i, merge_device d (statusOf i)) : String × Rec).1 = i from rfl, ← hidof]
        exact fun hcontra => hnd'.1 d' hd' hcontra.symm

/-- C9 (amended): for a discovery list whose devices all carry truthy,
pairwise distinct `id` fields, the merged snapshot has one entry per
discovered device, keyed by its id: discovery attributes overlaid with
the first matching status entry when the status lookup returned one, and
the plain discovery record when the lookup raised or returned no
entries; devices without a truthy `id` are dropped (as the
counterexample shows). -/
theorem async_update_data_spec (L : List Rec) (statusOf : String → StatusLookup)
    (hid : ∀ d ∈ L, (rlookup d "id").isSome ∧ idOf d ≠ "")
    (hnd : (L.map idOf).Nodup) :
    async_update_data L statusOf =
      L.map (fun d => (idOf d, merge_device d (statusOf (idOf d)))) ∧
    (async_update_data L statusOf).length = L.length := by
  have h := async_update_go statusOf L [] hid hnd (by simp)
  unfold async_update_data
  rw [h]
  simp

/-- C9 witness: three discovered devices with status found for `A` and
`B` but a raised lookup for `C` yield a three-entry snapshot where `C`
keeps its discovery-only record. -/
theorem async_update_data_spec_witness :
    async_update_data
        [[("id", "A"), ("name", "na")], [("id", "B")], [("id", "C")]]
        (fun i => if i = "A" then .found [[("lockState", "locked")]]
          else if i = "B" then .found [[("lockState", "unlocked")]]
          else .raised) =
      [("A", [("id", "A"), ("name", "na"), ("lockState", "locked")]),
        ("B", [("id", "B"), ("lockState", "unlocked")]),
        ("C", [("id", "C")])] := by
  have h := (async_update_data_spec
      [[("id", "A"), ("name", "na")], [("id", "B")], [("id", "C")]]
      (fun i => if i = "A" then .found [[("lockState", "locked")]]
        else if i = "B" then .found [[("lockState", "unlocked")]]
        else .raised) (by decide) (by decide)).1
  rw [h]
  decide

end UtecLocal

